import Mathlib

/-!
Shallow embedding of the IDMC CogniAssistant orchestration core:
the attachment Format Extractor (`extractTextFromOffice` and the text/plain
branch of `idmcAttachmentAnalysisFlow`), the Contextual flow with its mock
documentation tool, the Comprehensive three-step flow, and the chat
session controller (`handleSubmit` / `handleFileChange`).

External model calls (Genkit prompts) are modelled as oracle functions
returning `Except`, with `Except.error` standing for any model-invocation
fault (network error or output-schema validation failure).  The Node
Buffer base64 and UTF-8 codecs and the JS string methods used by the
code — split, includes, startsWith, trim — are modelled explicitly
below so that every definition is executable.
-/

namespace IDMC

/-! ## JS string primitives -/

/-- JS string split on a one-character separator, accumulator form:
splitting a,b on the comma gives the two chunks, a comma-free string
gives one chunk. -/
def jsSplitAux (sep : Char) : List Char → List Char → List (List Char)
  | [], acc => [acc.reverse]
  | c :: cs, acc =>
    if c = sep then acc.reverse :: jsSplitAux sep cs []
    else jsSplitAux sep cs (c :: acc)

/-- JS split for a one-character separator. -/
def jsSplit (s : String) (sep : Char) : List String :=
  (jsSplitAux sep s.data []).map String.mk

/-- Index 1 of the comma-split data URI: `none` models the JS value
undefined obtained when the data URI contains no comma. -/
def dataSegment (uri : String) : Option String :=
  (jsSplit uri ',').get? 1

/-- Whether `text` starts with `pat` (char-list level). -/
def startsWithL : List Char → List Char → Bool
  | _, [] => true
  | [], _ :: _ => false
  | t :: ts, p :: ps => t = p && startsWithL ts ps

/-- Whether `pat` occurs somewhere in `text` (char-list level). -/
def containsL : List Char → List Char → Bool
  | [], pat => pat.isEmpty
  | t :: ts, pat => startsWithL (t :: ts) pat || containsL ts pat

/-- JS substring containment test. -/
def jsIncludes (s sub : String) : Bool :=
  containsL s.data sub.data

/-- JS startsWith test. -/
def jsStartsWith (s pre : String) : Bool :=
  startsWithL s.data pre.data

/-- A JS-whitespace test covering the characters trim removes that can
occur in the inputs of this system. -/
def isWsChar (c : Char) : Bool :=
  c = ' ' || c = '\t' || c = '\n' || c = '\r'

/-- Drop leading whitespace from a char list. -/
def dropLeadWs : List Char → List Char
  | [] => []
  | c :: cs => if isWsChar c then dropLeadWs cs else c :: cs

/-- JS trim. -/
def jsTrim (s : String) : String :=
  String.mk ((dropLeadWs ((dropLeadWs s.data).reverse)).reverse)

/-! ## Base64 (model of the Node Buffer base64 codec / data-URI payloads) -/

/-- The base64 alphabet, by sextet value. -/
def sextetToChar (n : Nat) : Char :=
  if n < 26 then Char.ofNat (65 + n)
  else if n < 52 then Char.ofNat (97 + (n - 26))
  else if n < 62 then Char.ofNat (48 + (n - 52))
  else if n = 62 then Char.ofNat 43
  else Char.ofNat 47

/-- Inverse alphabet lookup; `none` for padding and any non-alphabet
character (the Node decoder skips those). -/
def charToSextet (c : Char) : Option Nat :=
  let v := c.toNat
  if 65 ≤ v ∧ v ≤ 90 then some (v - 65)
  else if 97 ≤ v ∧ v ≤ 122 then some (v - 71)
  else if 48 ≤ v ∧ v ≤ 57 then some (v + 4)
  else if v = 43 then some 62
  else if v = 47 then some 63
  else none

/-- Base64-encode a byte list (standard padding). -/
def b64EncodeList : List Nat → List Char
  | [] => []
  | [b1] =>
    [sextetToChar (b1 / 4), sextetToChar (b1 % 4 * 16), Char.ofNat 61, Char.ofNat 61]
  | [b1, b2] =>
    [sextetToChar (b1 / 4), sextetToChar (b1 % 4 * 16 + b2 / 16),
     sextetToChar (b2 % 16 * 4), Char.ofNat 61]
  | b1 :: b2 :: b3 :: rest =>
    sextetToChar (b1 / 4) :: sextetToChar (b1 % 4 * 16 + b2 / 16) ::
    sextetToChar (b2 % 16 * 4 + b3 / 64) :: sextetToChar (b3 % 64) ::
    b64EncodeList rest

/-- Base64-encode a byte list to a string. -/
def b64encode (bs : List Nat) : String :=
  String.mk (b64EncodeList bs)

/-- Reassemble bytes from a sextet stream, Node style: a trailing group of
three sextets yields two bytes, of two sextets one byte, and a lone
trailing sextet is dropped. -/
def sextetsToBytes : List Nat → List Nat
  | s1 :: s2 :: s3 :: s4 :: rest =>
    (s1 * 4 + s2 / 16) :: (s2 % 16 * 16 + s3 / 4) :: (s3 % 4 * 64 + s4) ::
    sextetsToBytes rest
  | [s1, s2, s3] => [s1 * 4 + s2 / 16, s2 % 16 * 16 + s3 / 4]
  | [s1, s2] => [s1 * 4 + s2 / 16]
  | _ => []

/-- Node-style lenient base64 decoding of a string: non-alphabet
characters (including padding) are skipped, never a thrown error. -/
def b64decode (s : String) : List Nat :=
  sextetsToBytes (s.data.filterMap charToSextet)

/-! ## UTF-8 (model of the Node Buffer utf-8 decoding) -/

/-- UTF-8 encoding of one code point. -/
def utf8EncodeChar (v : Nat) : List Nat :=
  if v < 0x80 then [v]
  else if v < 0x800 then [0xC0 + v / 64, 0x80 + v % 64]
  else if v < 0x10000 then [0xE0 + v / 4096, 0x80 + v / 64 % 64, 0x80 + v % 64]
  else [0xF0 + v / 262144, 0x80 + v / 4096 % 64, 0x80 + v / 64 % 64, 0x80 + v % 64]

/-- UTF-8 encoding of a string to bytes. -/
def utf8Encode (t : String) : List Nat :=
  ((t.data.map Char.toNat).map utf8EncodeChar).flatten

/-- The U+FFFD replacement character Node substitutes for invalid
sequences. -/
def replacementChar : Char := Char.ofNat 0xFFFD

/-- Decode a two-byte UTF-8 group (checking continuation and overlong
forms), U+FFFD when invalid. -/
def utf8Group2 (b1 b2 : Nat) : Char :=
  if 0x80 ≤ b2 ∧ b2 < 0xC0 ∧ 0x80 ≤ (b1 - 0xC0) * 64 + (b2 - 0x80) then
    Char.ofNat ((b1 - 0xC0) * 64 + (b2 - 0x80))
  else replacementChar

/-- Decode a three-byte UTF-8 group (checking continuations, overlong
forms and surrogates), U+FFFD when invalid. -/
def utf8Group3 (b1 b2 b3 : Nat) : Char :=
  if 0x80 ≤ b2 ∧ b2 < 0xC0 ∧ 0x80 ≤ b3 ∧ b3 < 0xC0 ∧
      0x800 ≤ (b1 - 0xE0) * 4096 + (b2 - 0x80) * 64 + (b3 - 0x80) ∧
      ((b1 - 0xE0) * 4096 + (b2 - 0x80) * 64 + (b3 - 0x80) < 0xD800 ∨
       0xDFFF < (b1 - 0xE0) * 4096 + (b2 - 0x80) * 64 + (b3 - 0x80)) then
    Char.ofNat ((b1 - 0xE0) * 4096 + (b2 - 0x80) * 64 + (b3 - 0x80))
  else replacementChar

/-- Decode a four-byte UTF-8 group (checking continuations and the code
point range), U+FFFD when invalid. -/
def utf8Group4 (b1 b2 b3 b4 : Nat) : Char :=
  if 0x80 ≤ b2 ∧ b2 < 0xC0 ∧ 0x80 ≤ b3 ∧ b3 < 0xC0 ∧ 0x80 ≤ b4 ∧ b4 < 0xC0 ∧
      0x10000 ≤ (b1 - 0xF0) * 262144 + (b2 - 0x80) * 4096 + (b3 - 0x80) * 64 + (b4 - 0x80) ∧
      (b1 - 0xF0) * 262144 + (b2 - 0x80) * 4096 + (b3 - 0x80) * 64 + (b4 - 0x80) < 0x110000 then
    Char.ofNat ((b1 - 0xF0) * 262144 + (b2 - 0x80) * 4096 + (b3 - 0x80) * 64 + (b4 - 0x80))
  else replacementChar

/-- Consume one UTF-8 group from the front of a byte stream: the decoded
char (U+FFFD on an invalid or truncated group) and the remaining bytes. -/
def utf8Step : List Nat → Char × List Nat
  | [] => (replacementChar, [])
  | b1 :: rest =>
    if b1 < 0x80 then (Char.ofNat b1, rest)
    else if b1 < 0xC0 then (replacementChar, rest)
    else if b1 < 0xE0 then
      match rest with
      | b2 :: rest2 => (utf8Group2 b1 b2, rest2)
      | [] => (replacementChar, [])
    else if b1 < 0xF0 then
      match rest with
      | b2 :: b3 :: rest3 => (utf8Group3 b1 b2 b3, rest3)
      | _ => (replacementChar, [])
    else
      match rest with
      | b2 :: b3 :: b4 :: rest4 => (utf8Group4 b1 b2 b3 b4, rest4)
      | _ => (replacementChar, [])

/-- Iterate `utf8Step` to the end of the stream; the fuel argument only
bounds the number of groups (each step strictly shortens the stream, so
`bs.length` fuel always suffices). -/
def utf8DecodeAux : Nat → List Nat → List Char
  | 0, _ => []
  | fuel + 1, bs =>
    match bs with
    | [] => []
    | b :: rest => (utf8Step (b :: rest)).1 :: utf8DecodeAux fuel (utf8Step (b :: rest)).2

/-- UTF-8 decoding of a byte list to chars. -/
def utf8DecodeList (bs : List Nat) : List Char :=
  utf8DecodeAux bs.length bs

/-- UTF-8 decoding of a byte list to a string. -/
def utf8Decode (bs : List Nat) : String :=
  String.mk (utf8DecodeList bs)

/-! ## xlsx / mammoth model (external document parsers)

A parsed workbook is its sheet list in workbook order; a sheet is its
grid of already-rendered cell strings.  `xlsx.utils.sheet_to_csv` renders
rows as comma-separated lines. -/

/-- A parsed spreadsheet workbook: sheet name paired with the sheet, in
the order the workbook SheetNames array lists them. -/
structure Workbook where
  sheets : List (String × List (List String))
deriving DecidableEq

/-- Model of the xlsx library sheet-to-csv renderer: rows as
comma-separated cell text, one row per line. -/
def sheet_to_csv (sheet : List (List String)) : String :=
  String.intercalate "\n" (sheet.map (String.intercalate ","))

/-- The two document parsers the extractor calls; `Except.error` models a
parser throw (caught by the try/catch of the extractor). -/
structure OfficeParsers where
  mammothRawText : List Nat → Except String String
  xlsxRead : List Nat → Except String Workbook

/-- Word-document MIME test of the extractor. -/
def wordMime (mimeType : String) : Bool :=
  mimeType = "application/vnd.openxmlformats-officedocument.wordprocessingml.document" ||
  jsIncludes mimeType "wordprocessingml" ||
  jsIncludes mimeType "officedocument.word"

/-- Spreadsheet MIME test of the extractor. -/
def excelMime (mimeType : String) : Bool :=
  mimeType = "application/vnd.openxmlformats-officedocument.spreadsheetml.sheet" ||
  mimeType = "application/vnd.ms-excel" ||
  jsIncludes mimeType "spreadsheetml" ||
  jsIncludes mimeType "excel" ||
  mimeType = "text/csv"

/-- The sheet-by-sheet text accumulation of the extractor spreadsheet
branch: appending a bracketed sheet-name header line and then the rendered
sheet rows, over the workbook sheets in order. -/
def sheetsFoldText (wb : Workbook) : String :=
  wb.sheets.foldl
    (fun text p => text ++ ("\n[Sheet: " ++ p.1 ++ "]\n") ++ sheet_to_csv p.2) ""

/-- The extractor extractTextFromOffice(dataUri, mimeType) of the attachment flow:
guards the missing data segment, then dispatches on the MIME type; parser
throws are caught and turned into an error-notice string. -/
def extractTextFromOffice (P : OfficeParsers) (dataUri mimeType : String) : String :=
  match dataSegment dataUri with
  | none => "Error: Invalid file data."
  | some base64Data =>
    let buffer := b64decode base64Data
    if wordMime mimeType then
      match P.mammothRawText buffer with
      | Except.ok v =>
        if v = "" then "The Word document appears to be empty." else v
      | Except.error _ =>
        "Error: Could not extract text from this " ++ mimeType ++ " document."
    else if excelMime mimeType then
      match P.xlsxRead buffer with
      | Except.ok wb =>
        let text := sheetsFoldText wb
        if text = "" then "The spreadsheet appears to be empty." else text
      | Except.error _ =>
        "Error: Could not extract text from this " ++ mimeType ++ " document."
    else if mimeType = "application/msword" then
      "Notice: This appears to be an older .doc format. Please convert it to .docx for full text extraction support."
    else ""

/-! ## Attachment analysis flow (`idmcAttachmentAnalysisFlow`) -/

/-- Input schema of the attachment flow. -/
structure IDMCAttachmentAnalysisInput where
  question : String
  attachmentDataUri : String
  attachmentType : Option String
deriving DecidableEq

/-- Output schema of the attachment flow. -/
structure IDMCAttachmentAnalysisOutput where
  answer : String
deriving DecidableEq

/-- The argument record the flow hands to the attachment prompt. -/
structure AttachmentPromptInput where
  question : String
  attachmentDataUri : Option String
  extractedText : Option String
  isMediaSupported : Bool
deriving DecidableEq

/-- Faults the attachment flow can surface: the unhandled TypeError
from feeding the undefined split result to the Buffer base64 decoder on the text/plain path, or a
model-invocation fault from the prompt. -/
inductive AttachmentFault
  | typeErrorUndefined
  | modelFault (message : String)
deriving DecidableEq

/-- The declared MIME type of the input, with empty-string fallback. -/
def flowMimeType (input : IDMCAttachmentAnalysisInput) : String :=
  input.attachmentType.getD ""

/-- The natively supported media test: the MIME type starts with image/
or equals application/pdf. -/
def isImageOrPdf (mimeType : String) : Bool :=
  jsStartsWith mimeType "image/" || mimeType = "application/pdf"

/-- The office-type test of the flow, selecting manual extraction. -/
def isOfficeMime (mimeType : String) : Bool :=
  jsIncludes mimeType "word" || jsIncludes mimeType "excel" ||
  jsIncludes mimeType "spreadsheet" || jsIncludes mimeType "officedocument" ||
  mimeType = "application/msword"

/-- The extracted-text computation of the flow body.  On the text/plain
path the code indexes the comma-split result without a guard, so a data URI with
no comma reaches the Buffer base64 decoder as undefined, which throws: that
is the `typeErrorUndefined` fault. -/
def flowExtractedText (P : OfficeParsers) (input : IDMCAttachmentAnalysisInput) :
    Except AttachmentFault String :=
  let mimeType := flowMimeType input
  if mimeType = "text/plain" then
    match dataSegment input.attachmentDataUri with
    | none => Except.error AttachmentFault.typeErrorUndefined
    | some seg => Except.ok (utf8Decode (b64decode seg))
  else if isOfficeMime mimeType then
    Except.ok (extractTextFromOffice P input.attachmentDataUri mimeType)
  else
    Except.ok ""

/-- The prompt-argument record built by the flow from the extraction
result (`extractedText || undefined`; the raw data URI only when the
type is natively supported). -/
def attachmentPromptArgs (input : IDMCAttachmentAnalysisInput)
    (extractedText : String) : AttachmentPromptInput :=
  let mimeType := flowMimeType input
  { question := input.question
    attachmentDataUri :=
      if isImageOrPdf mimeType then some input.attachmentDataUri else none
    extractedText := if extractedText = "" then none else some extractedText
    isMediaSupported := isImageOrPdf mimeType }

/-- The attachment flow: extract, then invoke the attachment prompt. -/
def idmcAttachmentAnalysisFlow (P : OfficeParsers)
    (attachmentPrompt : AttachmentPromptInput → Except String IDMCAttachmentAnalysisOutput)
    (input : IDMCAttachmentAnalysisInput) :
    Except AttachmentFault IDMCAttachmentAnalysisOutput :=
  match flowExtractedText P input with
  | Except.error e => Except.error e
  | Except.ok extractedText =>
    match attachmentPrompt (attachmentPromptArgs input extractedText) with
    | Except.ok out => Except.ok out
    | Except.error m => Except.error (AttachmentFault.modelFault m)

/-! ## Contextual flow (`contextualIDMCAnswersFlow` and its mock tool) -/

/-- Output schema of `getDocumentationTool`. -/
structure DocToolOutput where
  documentation : String
  links : List String
deriving DecidableEq

/-- The placeholder documentation blob the mock tool always returns. -/
def mockDocumentation : String :=
  "Informatica Data Management Cloud (IDMC) is a comprehensive, cloud-native, end-to-end data management platform. It offers various services including Data Integration, Data Quality, Master Data Management (MDM), Data Catalog, and Data Governance. IDMC is designed to help organizations manage, govern, and derive insights from their data across various cloud and on-premises environments. Key features include AI-powered automation (CLAIRE AI), metadata-driven data management, and a unified platform for all data initiatives. It supports multi-cloud and hybrid environments, ensuring flexibility and scalability for modern data ecosystems."

/-- The fixed reference-link list of the mock tool, in source order. -/
def mockLinks : List String :=
  ["https://www.informatica.com/products/data-management-cloud.html",
   "https://docs.informatica.com/cloud-common-services/cloud-data-integration/current-version/getting-started/getting-started/informatica-intelligent-cloud-services--iics--overview.html"]

/-- The tool getDocumentationTool: mocked retrieval, ignores the query content
and always succeeds with the fixed documentation and links. -/
def getDocumentationTool (_query : String) : DocToolOutput :=
  { documentation := mockDocumentation, links := mockLinks }

/-- Output schema of the contextual flow. -/
structure ContextualIDMCAnswersOutput where
  answer : String
  sourceLinks : Option (List String)
deriving DecidableEq

/-- The contextual flow: run the mock tool on the question, then the
grounded answer prompt; return its answer together with the tool
links. -/
def contextualIDMCAnswersFlow
    (answerQuestionPrompt : String → String → Except String String)
    (question : String) : Except String ContextualIDMCAnswersOutput :=
  let r := getDocumentationTool question
  match answerQuestionPrompt question r.documentation with
  | Except.ok ans => Except.ok { answer := ans, sourceLinks := some r.links }
  | Except.error e => Except.error e

/-! ## Comprehensive flow (`comprehensiveIDMCInsightsFlow`) -/

/-- Output schema of the comprehensive flow. -/
structure ComprehensiveIDMCInsightsOutput where
  answer : String
deriving DecidableEq

/-- The comprehensive flow: overview prompt, then detailed prompt, then
the synthesis prompt on the question and both answers; each `await`ed
in sequence, a fault at any step aborting the flow. -/
def comprehensiveIDMCInsightsFlow
    (generalOverviewPrompt : String → Except String String)
    (detailedInsightsPrompt : String → Except String String)
    (synthesisPrompt : String → String → String → Except String ComprehensiveIDMCInsightsOutput)
    (question : String) : Except String ComprehensiveIDMCInsightsOutput :=
  match generalOverviewPrompt question with
  | Except.error e => Except.error e
  | Except.ok overview =>
    match detailedInsightsPrompt question with
    | Except.error e => Except.error e
    | Except.ok detailed => synthesisPrompt question overview detailed

/-! ## Chat session controller (`chat-interface.tsx`) -/

/-- Message roles of the transcript. -/
inductive MsgRole
  | user
  | ai
deriving DecidableEq

/-- The attachment descriptor stored on a user message. -/
structure MsgAttachment where
  url : String
  type : String
  name : String
deriving DecidableEq

/-- A transcript message (the MessageType record in the source). -/
structure MessageType where
  role : MsgRole
  content : String
  sources : Option (List String)
  mode : Option String
  attachment : Option MsgAttachment
deriving DecidableEq

/-- A staged attachment (the Attachment type in the source: the selected file
plus its data URI and MIME type). -/
structure PendingAttachment where
  fileName : String
  fileSize : Nat
  dataUri : String
  type : String
deriving DecidableEq

/-- The three values of the mode selector. -/
inductive ChatMode
  | standard
  | contextual
  | comprehensive
deriving DecidableEq

/-- The string value of a mode (the active mode is a string literal in
the source). -/
def ChatMode.label : ChatMode → String
  | ChatMode.standard => "standard"
  | ChatMode.contextual => "contextual"
  | ChatMode.comprehensive => "comprehensive"

/-- The controller state: transcript, input box, loading flag, selected
mode and staged attachment. -/
structure ChatState where
  messages : List MessageType
  input : String
  isLoading : Bool
  activeMode : ChatMode
  pendingAttachment : Option PendingAttachment
deriving DecidableEq

/-- One orchestrator invocation, as selected by the if/else-if chain of
`handleSubmit`. -/
inductive OrchestratorCall
  | attachment (input : IDMCAttachmentAnalysisInput)
  | comprehensive (question : String)
  | contextual (question : String)
  | standard (question : String)
deriving DecidableEq

/-- What an orchestrator returns to the controller; the source links are only
read on the contextual branch. -/
structure OrchestratorResult where
  answer : String
  sourceLinks : Option (List String)
deriving DecidableEq

/-- The controller environment: the four server flows behind one
oracle, `Except.error` modelling a thrown/faulted request. -/
structure ControllerEnv where
  orchestrate : OrchestratorCall → Except String OrchestratorResult

/-- The fallback question used when a file is submitted with a blank
input box. -/
def defaultAttachmentQuestion : String :=
  "Analyze this file and explain its relevance to IDMC."

/-- The guard at the top of the submit handler: reject when the trimmed
input is blank with nothing staged, or a request is already loading. -/
def submitRejected (s : ChatState) : Bool :=
  (jsTrim s.input = "" && s.pendingAttachment.isNone) || s.isLoading

/-- The trimmed input text captured at submit time. -/
def userMessageText (s : ChatState) : String :=
  jsTrim s.input

/-- The optimistically appended user message. -/
def userMessageOf (s : ChatState) : MessageType :=
  { role := MsgRole.user
    content :=
      if userMessageText s = "" then
        match s.pendingAttachment with
        | some a => "Analyzing " ++ a.fileName ++ "..."
        | none => ""
      else userMessageText s
    sources := none
    mode := none
    attachment := s.pendingAttachment.map
      (fun a => { url := a.dataUri, type := a.type, name := a.fileName }) }

/-- The state after the synchronous prefix of a submission: user message
appended, input and staged attachment cleared, loading set. -/
def submitStart (s : ChatState) : ChatState :=
  { s with
    messages := s.messages ++ [userMessageOf s]
    input := ""
    pendingAttachment := none
    isLoading := true }

/-- Which orchestrator `handleSubmit` invokes: the attachment flow
whenever an attachment was staged (with the default question if the input
was blank), otherwise the flow matching the active mode. -/
def chooseCall (s : ChatState) : OrchestratorCall :=
  match s.pendingAttachment with
  | some a =>
    OrchestratorCall.attachment
      { question :=
          if userMessageText s = "" then defaultAttachmentQuestion
          else userMessageText s
        attachmentDataUri := a.dataUri
        attachmentType := some a.type }
  | none =>
    match s.activeMode with
    | ChatMode.comprehensive => OrchestratorCall.comprehensive (userMessageText s)
    | ChatMode.contextual => OrchestratorCall.contextual (userMessageText s)
    | ChatMode.standard => OrchestratorCall.standard (userMessageText s)

/-- The fixed user-visible apology text of the catch branch. -/
def errorMessageText : String :=
  "I encountered an error processing your request. Please try again or check your connection."

/-- The assistant message appended on success: answer, sources (only set
by the contextual branch) and the mode label. -/
def successMessage (s : ChatState) (r : OrchestratorResult) : MessageType :=
  { role := MsgRole.ai
    content := r.answer
    sources :=
      match chooseCall s with
      | OrchestratorCall.contextual _ => r.sourceLinks
      | _ => none
    mode := some (if s.pendingAttachment.isSome then "attachment-analysis" else s.activeMode.label)
    attachment := none }

/-- The assistant message appended on fault: the fixed apology, nothing
else. -/
def errorMessage : MessageType :=
  { role := MsgRole.ai
    content := errorMessageText
    sources := none
    mode := none
    attachment := none }

/-- The submit handler: guard, optimistic append, exactly one orchestrator
invocation, then the success or catch append and the loading flag cleared. -/
def handleSubmit (env : ControllerEnv) (s : ChatState) : ChatState :=
  if submitRejected s then s
  else
    let s1 := submitStart s
    match env.orchestrate (chooseCall s) with
    | Except.ok r =>
      { s1 with messages := s1.messages ++ [successMessage s r], isLoading := false }
    | Except.error _ =>
      { s1 with messages := s1.messages ++ [errorMessage], isLoading := false }

/-- A file selected in the file input. -/
structure SelectedFile where
  name : String
  size : Nat
  type : String
  dataUri : String
deriving DecidableEq

/-- The file-selection handler: no file selected is a no-op; a file over
`10 * 1024 * 1024` bytes shows a destructive toast (the `Bool`) and
stages nothing; otherwise the file is staged as the pending
attachment. -/
def handleFileChange (s : ChatState) (f : Option SelectedFile) : ChatState × Bool :=
  match f with
  | none => (s, false)
  | some file =>
    if file.size > 10 * 1024 * 1024 then (s, true)
    else
      let staged : PendingAttachment :=
        { fileName := file.name, fileSize := file.size
          dataUri := file.dataUri, type := file.type }
      ({ s with pendingAttachment := some staged }, false)

/-! ## Support definitions for the verification -/

/-- One text block per sheet, in workbook order: the sheet-name header
line followed by that sheet rendered as comma-separated rows.  This is
the specification-shaped reading of the extractor accumulation loop. -/
def sheetsConcat : List (String × List (List String)) → String
  | [] => ""
  | p :: rest =>
    ("\n[Sheet: " ++ p.1 ++ "]\n" ++ sheet_to_csv p.2) ++ sheetsConcat rest

/-- Parsers that fault when consulted; used to instantiate theorems on
paths that never reach a document parser. -/
def trivialParsers : OfficeParsers :=
  { mammothRawText := fun _ => Except.error "not invoked"
    xlsxRead := fun _ => Except.error "not invoked" }

/-- A concrete idle controller state with a typed question. -/
def helloIdleState : ChatState :=
  { messages := []
    input := "Hello"
    isLoading := false
    activeMode := ChatMode.comprehensive
    pendingAttachment := none }

/-- An environment whose orchestrator answers successfully. -/
def answerEnv : ControllerEnv :=
  { orchestrate := fun _ => Except.ok { answer := "answer", sourceLinks := none } }

/-- An environment standing for the still-running first request. -/
def lateEnv : ControllerEnv :=
  { orchestrate := fun _ => Except.error "late" }

/-- A staged PNG attachment. -/
def stagedPng : PendingAttachment :=
  { fileName := "diagram.png"
    fileSize := 100
    dataUri := "data:image/png;base64,AAAA"
    type := "image/png" }

/-- Contextual mode selected, PNG staged, blank input box. -/
def stagedContextualState : ChatState :=
  { messages := []
    input := " "
    isLoading := false
    activeMode := ChatMode.contextual
    pendingAttachment := some stagedPng }

/-- Contextual mode selected, no attachment. -/
def contextualIdleState : ChatState :=
  { messages := []
    input := "What is IDMC?"
    isLoading := false
    activeMode := ChatMode.contextual
    pendingAttachment := none }

/-- The orchestrator answer used in the attachment-dispatch witness. -/
def diagramAnswer : OrchestratorResult :=
  { answer := "An architecture diagram.", sourceLinks := none }

/-- An environment returning `diagramAnswer`. -/
def diagramEnv : ControllerEnv :=
  { orchestrate := fun _ => Except.ok diagramAnswer }

/-- The assistant greeting already present in a transcript. -/
def greetingMessage : MessageType :=
  { role := MsgRole.ai
    content := "Hello!"
    sources := none
    mode := none
    attachment := none }

/-- An idle state whose transcript already holds the greeting. -/
def greetedState : ChatState :=
  { messages := [greetingMessage]
    input := "Tell me about IDMC"
    isLoading := false
    activeMode := ChatMode.standard
    pendingAttachment := none }

/-- An environment whose orchestrator faults with a gateway error. -/
def gatewayFaultEnv : ControllerEnv :=
  { orchestrate := fun _ => Except.error "HTTP 500 from model gateway" }

/-- An empty idle controller state. -/
def emptyIdleState : ChatState :=
  { messages := []
    input := ""
    isLoading := false
    activeMode := ChatMode.comprehensive
    pendingAttachment := none }

/-- A selected file one byte over the 10 MiB limit. -/
def oversizeFile : SelectedFile :=
  { name := "big.xlsx"
    size := 10 * 1024 * 1024 + 1
    type := "application/vnd.ms-excel"
    dataUri := "data:application/vnd.ms-excel;base64,AAAA" }

/-! ## Codec round-trip lemmas -/

/-- Alphabet lookup inverts the alphabet map on every sextet. -/
theorem charToSextet_sextetToChar : ∀ n, n < 64 → charToSextet (sextetToChar n) = some n := by
  decide

/-- The padding character is skipped by the decoder. -/
theorem charToSextet_padChar : charToSextet (Char.ofNat 61) = none := by
  decide

/-- Base64 decoding of an encoded byte list recovers the bytes. -/
theorem sextetsToBytes_encode : ∀ (bs : List Nat), (∀ b ∈ bs, b < 256) →
    sextetsToBytes ((b64EncodeList bs).filterMap charToSextet) = bs
  | [], _ => by simp [b64EncodeList, sextetsToBytes]
  | [b1], h => by
    have hb1 : b1 < 256 := h b1 (by simp)
    have e1 : charToSextet (sextetToChar (b1 / 4)) = some (b1 / 4) :=
      charToSextet_sextetToChar _ (by omega)
    have e2 : charToSextet (sextetToChar (b1 % 4 * 16)) = some (b1 % 4 * 16) :=
      charToSextet_sextetToChar _ (by omega)
    simp only [b64EncodeList, List.filterMap_cons, e1, e2, charToSextet_padChar,
      List.filterMap_nil, sextetsToBytes]
    simp only [List.cons.injEq, and_true]
    omega
  | [b1, b2], h => by
    have hb1 : b1 < 256 := h b1 (by simp)
    have hb2 : b2 < 256 := h b2 (by simp)
    have e1 : charToSextet (sextetToChar (b1 / 4)) = some (b1 / 4) :=
      charToSextet_sextetToChar _ (by omega)
    have e2 : charToSextet (sextetToChar (b1 % 4 * 16 + b2 / 16)) = some (b1 % 4 * 16 + b2 / 16) :=
      charToSextet_sextetToChar _ (by omega)
    have e3 : charToSextet (sextetToChar (b2 % 16 * 4)) = some (b2 % 16 * 4) :=
      charToSextet_sextetToChar _ (by omega)
    simp only [b64EncodeList, List.filterMap_cons, e1, e2, e3, charToSextet_padChar,
      List.filterMap_nil, sextetsToBytes]
    simp only [List.cons.injEq, and_true]
    omega
  | b1 :: b2 :: b3 :: rest, h => by
    have hb1 : b1 < 256 := h b1 (by simp)
    have hb2 : b2 < 256 := h b2 (by simp)
    have hb3 : b3 < 256 := h b3 (by simp)
    have ih := sextetsToBytes_encode rest (fun b hb => h b (by simp [hb]))
    have e1 : charToSextet (sextetToChar (b1 / 4)) = some (b1 / 4) :=
      charToSextet_sextetToChar _ (by omega)
    have e2 : charToSextet (sextetToChar (b1 % 4 * 16 + b2 / 16)) = some (b1 % 4 * 16 + b2 / 16) :=
      charToSextet_sextetToChar _ (by omega)
    have e3 : charToSextet (sextetToChar (b2 % 16 * 4 + b3 / 64)) = some (b2 % 16 * 4 + b3 / 64) :=
      charToSextet_sextetToChar _ (by omega)
    have e4 : charToSextet (sextetToChar (b3 % 64)) = some (b3 % 64) :=
      charToSextet_sextetToChar _ (by omega)
    simp only [b64EncodeList, List.filterMap_cons, e1, e2, e3, e4, sextetsToBytes, ih]
    simp only [List.cons.injEq, and_true]
    omega

/-- Base64 round trip on byte lists below 256. -/
theorem b64decode_b64encode (bs : List Nat) (h : ∀ b ∈ bs, b < 256) :
    b64decode (b64encode bs) = bs := by
  simp only [b64decode, b64encode]
  exact sextetsToBytes_encode bs h

/-- Nat-level reading of `Char.valid`: a char code point is below the
surrogate range or strictly between it and 0x110000. -/
theorem char_toNat_valid (c : Char) : c.toNat < 0xD800 ∨ (0xDFFF < c.toNat ∧ c.toNat < 0x110000) := by
  rcases c.valid with hval | hval
  · exact Or.inl hval
  · exact Or.inr hval

/-- Decoding an encoded valid code point consumes exactly its bytes. -/
theorem utf8EncodeChar_cons (v : Nat) : ∃ a as, utf8EncodeChar v = a :: as := by
  rw [utf8EncodeChar]
  split_ifs
  · exact ⟨_, _, rfl⟩
  · exact ⟨_, _, rfl⟩
  · exact ⟨_, _, rfl⟩
  · exact ⟨_, _, rfl⟩

theorem utf8Step_encodeChar (v : Nat)
    (hv : v < 0xD800 ∨ (0xDFFF < v ∧ v < 0x110000)) (rest : List Nat) :
    utf8Step (utf8EncodeChar v ++ rest) = (Char.ofNat v, rest) := by
  by_cases h1 : v < 0x80
  · have e : utf8EncodeChar v = [v] := by
      rw [utf8EncodeChar, if_pos h1]
    rw [e]
    show utf8Step (v :: rest) = _
    rw [utf8Step.eq_def]
    simp only
    rw [if_pos h1]
  · by_cases h2 : v < 0x800
    · have e : utf8EncodeChar v = [0xC0 + v / 64, 0x80 + v % 64] := by
        rw [utf8EncodeChar, if_neg h1, if_pos h2]
      rw [e]
      show utf8Step ((0xC0 + v / 64) :: (0x80 + v % 64) :: rest) = _
      rw [utf8Step.eq_def]
      simp only
      rw [if_neg (by omega), if_neg (by omega), if_pos (by omega)]
      rw [utf8Group2, if_pos (by omega)]
      have harith : (0xC0 + v / 64 - 0xC0) * 64 + (0x80 + v % 64 - 0x80) = v := by omega
      rw [harith]
    · by_cases h3 : v < 0x10000
      · have e : utf8EncodeChar v = [0xE0 + v / 4096, 0x80 + v / 64 % 64, 0x80 + v % 64] := by
          rw [utf8EncodeChar, if_neg h1, if_neg h2, if_pos h3]
        rw [e]
        show utf8Step ((0xE0 + v / 4096) :: (0x80 + v / 64 % 64) :: (0x80 + v % 64) :: rest) = _
        rw [utf8Step.eq_def]
        simp only
        rw [if_neg (by omega), if_neg (by omega), if_neg (by omega), if_pos (by omega)]
        rw [utf8Group3.eq_def, if_pos (by omega)]
        have harith : (0xE0 + v / 4096 - 0xE0) * 4096 + (0x80 + v / 64 % 64 - 0x80) * 64 +
            (0x80 + v % 64 - 0x80) = v := by omega
        rw [harith]
      · have h4 : v < 0x110000 := by omega
        have e : utf8EncodeChar v =
            [0xF0 + v / 262144, 0x80 + v / 4096 % 64, 0x80 + v / 64 % 64, 0x80 + v % 64] := by
          rw [utf8EncodeChar, if_neg h1, if_neg h2, if_neg h3]
        rw [e]
        show utf8Step ((0xF0 + v / 262144) :: (0x80 + v / 4096 % 64) ::
          (0x80 + v / 64 % 64) :: (0x80 + v % 64) :: rest) = _
        rw [utf8Step.eq_def]
        simp only
        rw [if_neg (by omega), if_neg (by omega), if_neg (by omega), if_neg (by omega)]
        rw [utf8Group4.eq_def, if_pos (by omega)]
        have harith : (0xF0 + v / 262144 - 0xF0) * 262144 + (0x80 + v / 4096 % 64 - 0x80) * 4096 +
            (0x80 + v / 64 % 64 - 0x80) * 64 + (0x80 + v % 64 - 0x80) = v := by omega
        rw [harith]

/-- Decoding an encoded char list with enough fuel recovers the chars. -/
theorem utf8DecodeAux_encode (cs : List Char) : ∀ (fuel : Nat),
    (((cs.map Char.toNat).map utf8EncodeChar).flatten).length ≤ fuel →
    utf8DecodeAux fuel (((cs.map Char.toNat).map utf8EncodeChar).flatten) = cs := by
  induction cs with
  | nil =>
    intro fuel _
    cases fuel <;> rfl
  | cons c cs ih =>
    intro fuel hfuel
    simp only [List.map_cons, List.flatten_cons] at hfuel ⊢
    obtain ⟨a, as, he⟩ := utf8EncodeChar_cons c.toNat
    have hlen : 1 ≤ (utf8EncodeChar c.toNat).length := by
      rw [he]
      simp
    cases fuel with
    | zero =>
      exfalso
      rw [List.length_append] at hfuel
      omega
    | succ f =>
      have hcons : utf8EncodeChar c.toNat ++ ((cs.map Char.toNat).map utf8EncodeChar).flatten =
          a :: (as ++ ((cs.map Char.toNat).map utf8EncodeChar).flatten) := by
        rw [he]
        rfl
      rw [hcons, utf8DecodeAux, ← hcons,
        utf8Step_encodeChar c.toNat (char_toNat_valid c)]
      rw [List.length_append] at hfuel
      rw [ih f (by omega), Char.ofNat_toNat]

/-- UTF-8 round trip: decoding the encoding of any string returns it. -/
theorem utf8Decode_utf8Encode (t : String) : utf8Decode (utf8Encode t) = t := by
  rw [utf8Decode, utf8Encode, utf8DecodeList,
    utf8DecodeAux_encode t.data _ (Nat.le_refl _)]

/-- Every byte the UTF-8 encoder emits for a valid code point is below
256. -/
theorem utf8EncodeChar_bytes_lt (v : Nat) (hv : v < 0x110000) :
    ∀ b ∈ utf8EncodeChar v, b < 256 := by
  intro b hb
  by_cases h1 : v < 0x80
  · rw [utf8EncodeChar, if_pos h1] at hb
    simp only [List.mem_singleton] at hb
    omega
  · by_cases h2 : v < 0x800
    · rw [utf8EncodeChar, if_neg h1, if_pos h2] at hb
      simp only [List.mem_cons, List.not_mem_nil, or_false] at hb
      rcases hb with rfl | rfl <;> omega
    · by_cases h3 : v < 0x10000
      · rw [utf8EncodeChar, if_neg h1, if_neg h2, if_pos h3] at hb
        simp only [List.mem_cons, List.not_mem_nil, or_false] at hb
        rcases hb with rfl | rfl | rfl <;> omega
      · rw [utf8EncodeChar, if_neg h1, if_neg h2, if_neg h3] at hb
        simp only [List.mem_cons, List.not_mem_nil, or_false] at hb
        rcases hb with rfl | rfl | rfl | rfl <;> omega

/-- Every byte of the UTF-8 encoding of a string is below 256. -/
theorem utf8Encode_bytes_lt (t : String) : ∀ b ∈ utf8Encode t, b < 256 := by
  intro b hb
  rw [utf8Encode] at hb
  rw [List.mem_flatten] at hb
  obtain ⟨l, hl, hbl⟩ := hb
  rw [List.mem_map] at hl
  obtain ⟨v, hv, rfl⟩ := hl
  rw [List.mem_map] at hv
  obtain ⟨c, _, rfl⟩ := hv
  have := char_toNat_valid c
  exact utf8EncodeChar_bytes_lt c.toNat (by omega) b hbl

/-! ## Spreadsheet accumulation lemmas -/

/-- The accumulation loop of the extractor is the per-sheet concatenation. -/
theorem sheetsFold_append (l : List (String × List (List String))) (acc : String) :
    l.foldl (fun text p => text ++ ("\n[Sheet: " ++ p.1 ++ "]\n") ++ sheet_to_csv p.2) acc =
      acc ++ sheetsConcat l := by
  induction l generalizing acc with
  | nil => simp [sheetsConcat, String.append_empty]
  | cons p l ih =>
    rw [List.foldl_cons, ih, sheetsConcat]
    simp [String.append_assoc]

/-- The fold sheetsFoldText agrees with the per-sheet concatenation. -/
theorem sheetsFoldText_eq (wb : Workbook) : sheetsFoldText wb = sheetsConcat wb.sheets := by
  rw [sheetsFoldText, sheetsFold_append, String.empty_append]

/-- A workbook with at least one sheet never folds to the empty string
(its text starts with the first sheet header). -/
theorem sheetsConcat_cons_ne_empty (p : String × List (List String))
    (l : List (String × List (List String))) : sheetsConcat (p :: l) ≠ "" := by
  intro hcontra
  have hlen := congrArg String.length hcontra
  rw [sheetsConcat] at hlen
  simp only [String.length_append] at hlen
  have h9 : ("\n[Sheet: " : String).length = 9 := rfl
  rw [h9] at hlen
  have h0 : ("" : String).length = 0 := rfl
  rw [h0] at hlen
  omega

/-! ## Claim theorems -/

/-- Claim C1 (code bug evidence): for a text/plain attachment whose data
URI has no comma-separated payload segment, the attachment flow does NOT
return an error-notice string — the unguarded `split(',')[1]` feeds
`undefined` to `Buffer.from`, whose `TypeError` aborts the whole request,
for every parser environment and every model oracle.  This contradicts
the spec sentence that a malformed payload yields an explicit
error-notice string and never an unhandled fault. -/
theorem C1_text_plain_missing_segment_unhandled_fault :
    ∀ (P : OfficeParsers)
      (attachmentPrompt : AttachmentPromptInput → Except String IDMCAttachmentAnalysisOutput),
      idmcAttachmentAnalysisFlow P attachmentPrompt
        { question := "What is in this file?", attachmentDataUri := "AAAA"
          attachmentType := some "text/plain" } =
        Except.error AttachmentFault.typeErrorUndefined := by
  intro P attachmentPrompt
  rfl

/-- Claim C1 context: on every office MIME type, by contrast, the guard
inside `extractTextFromOffice` does return the explicit error-notice
string for a data URI with no payload segment. -/
theorem C1_office_missing_segment_notice (P : OfficeParsers) (dataUri mimeType : String)
    (h : dataSegment dataUri = none) :
    extractTextFromOffice P dataUri mimeType = "Error: Invalid file data." := by
  rw [extractTextFromOffice, h]

/-- Claim C1 context witness at a concrete office input. -/
theorem C1_office_missing_segment_notice_witness :
    extractTextFromOffice trivialParsers "no-comma-here" "application/vnd.ms-excel" =
      "Error: Invalid file data." :=
  C1_office_missing_segment_notice trivialParsers "no-comma-here"
    "application/vnd.ms-excel" (by decide)

/-- Claim C4: for every spreadsheet attachment (any MIME the extractor
classifies as a spreadsheet, and not as a word document) whose workbook
parses to a non-empty sheet list, the extracted text is exactly the
concatenation, in workbook order, of one block per sheet: the sheet-name
header line followed by the comma-separated rows of that sheet — so a
workbook with N sheets contributes exactly N header lines in workbook
order. -/
theorem C4_spreadsheet_sheet_blocks (P : OfficeParsers) (dataUri mimeType seg : String)
    (wb : Workbook)
    (hword : wordMime mimeType = false)
    (hexcel : excelMime mimeType = true)
    (hseg : dataSegment dataUri = some seg)
    (hread : P.xlsxRead (b64decode seg) = Except.ok wb)
    (hne : wb.sheets ≠ []) :
    extractTextFromOffice P dataUri mimeType = sheetsConcat wb.sheets := by
  rw [extractTextFromOffice, hseg]
  simp only [hword, hexcel, Bool.false_eq_true, if_false, if_true]
  rw [hread]
  have hnemp : sheetsConcat wb.sheets ≠ "" := by
    cases hs : wb.sheets with
    | nil => exact absurd hs hne
    | cons p l => exact sheetsConcat_cons_ne_empty p l
  simp [sheetsFoldText_eq, hnemp]

/-- Claim C4 witness: a two-sheet workbook yields the two header lines
and their rows, in order. -/
theorem C4_spreadsheet_sheet_blocks_witness :
    extractTextFromOffice
      { mammothRawText := fun _ => Except.error "not invoked"
        xlsxRead := fun _ =>
          Except.ok ⟨[("Revenue", [["a", "b"], ["c", "d"]]), ("Summary", [["x"]])]⟩ }
      "data:text/csv;base64,QQ==" "text/csv" =
      "\n[Sheet: Revenue]\na,b\nc,d\n[Sheet: Summary]\nx" := by
  have h := C4_spreadsheet_sheet_blocks
    { mammothRawText := fun _ => Except.error "not invoked"
      xlsxRead := fun _ =>
        Except.ok ⟨[("Revenue", [["a", "b"], ["c", "d"]]), ("Summary", [["x"]])]⟩ }
    "data:text/csv;base64,QQ==" "text/csv" "QQ=="
    ⟨[("Revenue", [["a", "b"], ["c", "d"]]), ("Summary", [["x"]])]⟩
    (by decide) (by decide) (by decide) rfl (by decide)
  rw [h]
  decide

/-- Claim C5 counterexample: the claim fails as stated.  For the
declared MIME type `image/excel` — which starts with `image/` — the
office test of the flow also matches (it contains the substring excel),
so extraction IS attempted: with a data URI lacking a payload segment
the extractor error notice is produced and forwarded to the model invocation as
extracted text, which the claim says must be empty/absent. -/
theorem C5_counterexample_image_mime_with_office_substring :
    isImageOrPdf "image/excel" = true ∧
    flowExtractedText trivialParsers
      { question := "q", attachmentDataUri := "corrupted-uri-with-no-comma"
        attachmentType := some "image/excel" } = Except.ok "Error: Invalid file data." ∧
    (attachmentPromptArgs
      { question := "q", attachmentDataUri := "corrupted-uri-with-no-comma"
        attachmentType := some "image/excel" } "Error: Invalid file data.").extractedText =
      some "Error: Invalid file data." := by
  exact ⟨rfl, rfl, rfl⟩

/-- Claim C5 (amended): for every attachment whose declared MIME type
starts with image/ or equals application/pdf and which the office test
of the flow does not also match (no word, excel, spreadsheet or
officedocument substring and not application/msword), no extraction
is attempted — the extracted text is empty, absent in the model
invocation — and the raw data-URI payload is forwarded to the model
invocation unchanged, with media marked supported. -/
theorem C5_image_pdf_pass_through (P : OfficeParsers) (input : IDMCAttachmentAnalysisInput)
    (himg : isImageOrPdf (flowMimeType input) = true)
    (hoff : isOfficeMime (flowMimeType input) = false) :
    flowExtractedText P input = Except.ok "" ∧
    attachmentPromptArgs input "" =
      { question := input.question
        attachmentDataUri := some input.attachmentDataUri
        extractedText := none
        isMediaSupported := true } := by
  have hplain : flowMimeType input ≠ "text/plain" := by
    intro hcontra
    rw [hcontra] at himg
    exact absurd himg (by decide)
  constructor
  · rw [flowExtractedText, if_neg hplain]
    simp [hoff]
  · rw [attachmentPromptArgs]
    simp [himg]

/-- Claim C5 (amended) witness at a PNG attachment. -/
theorem C5_image_pdf_pass_through_witness :
    flowExtractedText trivialParsers
      { question := "Describe this", attachmentDataUri := "data:image/png;base64,AAAA"
        attachmentType := some "image/png" } = Except.ok "" ∧
    attachmentPromptArgs
      { question := "Describe this", attachmentDataUri := "data:image/png;base64,AAAA"
        attachmentType := some "image/png" } "" =
      { question := "Describe this"
        attachmentDataUri := some "data:image/png;base64,AAAA"
        extractedText := none
        isMediaSupported := true } :=
  C5_image_pdf_pass_through trivialParsers _ (by decide) (by decide)

/-- Claim C6: for every text/plain attachment whose data-URI payload
segment is the base64 encoding of the UTF-8 encoding of a text, the
extracted text of the flow is exactly that text — encode then extract is the
identity. -/
theorem C6_plain_text_roundtrip (P : OfficeParsers) (q uri t : String)
    (h : dataSegment uri = some (b64encode (utf8Encode t))) :
    flowExtractedText P
      { question := q, attachmentDataUri := uri, attachmentType := some "text/plain" } =
      Except.ok t := by
  rw [flowExtractedText]
  simp only [flowMimeType, Option.getD_some, if_true]
  rw [h]
  show Except.ok (utf8Decode (b64decode (b64encode (utf8Encode t)))) = Except.ok t
  rw [b64decode_b64encode _ (utf8Encode_bytes_lt t), utf8Decode_utf8Encode]

/-- Claim C6 witness: `"Hi"` encodes to payload `SGk=` and extracts back
to `"Hi"`. -/
theorem C6_plain_text_roundtrip_witness :
    flowExtractedText trivialParsers
      { question := "What does the file say?",
        attachmentDataUri := "data:text/plain;base64,SGk="
        attachmentType := some "text/plain" } = Except.ok "Hi" :=
  C6_plain_text_roundtrip trivialParsers "What does the file say?"
    "data:text/plain;base64,SGk=" "Hi" (by decide)

/-- Claim C2 counterexample: the claim fails as stated.  A fast-path
call may succeed with an empty answer (the output schema is a plain
string and no emptiness check exists), and the synthesis step is then
invoked with that empty fast-path answer even though both upstream
calls succeeded — witnessed by a synthesis oracle whose output records
that it saw the empty overview. -/
theorem C2_counterexample_synthesis_sees_empty_overview :
    comprehensiveIDMCInsightsFlow
      (fun _ => Except.ok "")
      (fun _ => Except.ok "deep-path answer")
      (fun _ overview _ =>
        Except.ok { answer :=
          if overview = "" then "saw empty overview" else "saw nonempty overview" })
      "What is IDMC?" =
      Except.ok { answer := "saw empty overview" } := by
  rfl

/-- Claim C2 (amended): in Comprehensive mode the synthesis step is
invoked exactly when both the fast-path and deep-path calls succeed,
receiving the question and both answers verbatim; if the fast-path
faults, or the fast-path succeeds and the deep-path faults, the result
is that fault regardless of the synthesis oracle (and, for a fast-path
fault, regardless of the deep-path oracle) — no synthesis call occurs
and there is no partial-result fallback. -/
theorem C2_synthesis_iff_both_succeed
    (op dp : String → Except String String)
    (sp : String → String → String → Except String ComprehensiveIDMCInsightsOutput)
    (q : String) :
    (∀ o d, op q = Except.ok o → dp q = Except.ok d →
      comprehensiveIDMCInsightsFlow op dp sp q = sp q o d) ∧
    (∀ e, op q = Except.error e →
      ∀ dp' sp', comprehensiveIDMCInsightsFlow op dp' sp' q = Except.error e) ∧
    (∀ o e, op q = Except.ok o → dp q = Except.error e →
      ∀ sp', comprehensiveIDMCInsightsFlow op dp sp' q = Except.error e) := by
  refine ⟨?_, ?_, ?_⟩
  · intro o d ho hd
    rw [comprehensiveIDMCInsightsFlow, ho, hd]
  · intro e he dp' sp'
    rw [comprehensiveIDMCInsightsFlow, he]
  · intro o e ho hd sp'
    rw [comprehensiveIDMCInsightsFlow, ho, hd]

/-- Claim C2 (amended) witness: a success pair reaches synthesis with
both answers, and a fast-path fault is returned as the overall fault
with a synthesis oracle that would have answered. -/
theorem C2_synthesis_iff_both_succeed_witness :
    comprehensiveIDMCInsightsFlow (fun _ => Except.ok "fast answer")
      (fun _ => Except.ok "deep answer")
      (fun _ o d => Except.ok { answer := o ++ " / " ++ d }) "q" =
      (fun _ o d => Except.ok ({ answer := o ++ " / " ++ d } :
        ComprehensiveIDMCInsightsOutput)) "q" "fast answer" "deep answer" ∧
    comprehensiveIDMCInsightsFlow (fun _ => Except.error "network fault")
      (fun _ => Except.ok "deep answer")
      (fun _ _ _ => Except.ok { answer := "never" }) "q" =
      Except.error "network fault" :=
  ⟨(C2_synthesis_iff_both_succeed (fun _ => Except.ok "fast answer")
      (fun _ => Except.ok "deep answer")
      (fun _ o d => Except.ok { answer := o ++ " / " ++ d }) "q").1
      "fast answer" "deep answer" rfl rfl,
   (C2_synthesis_iff_both_succeed (fun _ => Except.error "network fault")
      (fun _ => Except.ok "deep answer")
      (fun _ _ _ => Except.ok { answer := "never" }) "q").2.1
      "network fault" rfl (fun _ => Except.ok "deep answer")
      (fun _ _ _ => Except.ok { answer := "never" })⟩

/-- Claim C3: whenever the contextual flow returns successfully, its
source links are exactly the fixed reference list of the mock tool — the
same two URLs in the same order — independent of the question and of
the answer the model produced. -/
theorem C3_sourceLinks_always_mock_list
    (answerQuestionPrompt : String → String → Except String String) (q : String)
    (out : ContextualIDMCAnswersOutput)
    (h : contextualIDMCAnswersFlow answerQuestionPrompt q = Except.ok out) :
    out.sourceLinks = some mockLinks ∧
    mockLinks =
      ["https://www.informatica.com/products/data-management-cloud.html",
       "https://docs.informatica.com/cloud-common-services/cloud-data-integration/current-version/getting-started/getting-started/informatica-intelligent-cloud-services--iics--overview.html"] := by
  refine ⟨?_, rfl⟩
  rw [contextualIDMCAnswersFlow] at h
  cases hap : answerQuestionPrompt q (getDocumentationTool q).documentation with
  | ok ans =>
    rw [hap] at h
    cases h
    rfl
  | error e =>
    rw [hap] at h
    cases h

/-- Claim C3 witness: at a question whose answer is the refusal
sentence, the links are still the fixed list. -/
theorem C3_sourceLinks_always_mock_list_witness :
    (({ answer := "I do not have enough information from the provided documentation to answer this question."
        sourceLinks := some mockLinks } : ContextualIDMCAnswersOutput).sourceLinks =
      some mockLinks) ∧
    mockLinks =
      ["https://www.informatica.com/products/data-management-cloud.html",
       "https://docs.informatica.com/cloud-common-services/cloud-data-integration/current-version/getting-started/getting-started/informatica-intelligent-cloud-services--iics--overview.html"] :=
  C3_sourceLinks_always_mock_list
    (fun _ _ => Except.ok "I do not have enough information from the provided documentation to answer this question.")
    "What is the capital of France?"
    { answer := "I do not have enough information from the provided documentation to answer this question."
      sourceLinks := some mockLinks }
    rfl

/-- Claim C7: from every reachable state at most one request is in
flight.  After the synchronous prefix of a valid submission the state is
loading, and a second submission against that state is a no-op for every
environment (no orchestrator invoked, no message appended); the original
submission appends exactly one user/assistant message pair and returns
to idle. -/
theorem C7_single_request_in_flight (env1 env2 : ControllerEnv) (s : ChatState)
    (h : submitRejected s = false) :
    (submitStart s).isLoading = true ∧
    handleSubmit env2 (submitStart s) = submitStart s ∧
    (handleSubmit env1 s).messages.length = s.messages.length + 2 ∧
    (handleSubmit env1 s).isLoading = false := by
  refine ⟨rfl, ?_, ?_, ?_⟩
  · rw [handleSubmit, if_pos ?_]
    rw [submitRejected]
    simp [submitStart]
  · rw [handleSubmit, if_neg (by rw [h]; exact Bool.false_ne_true)]
    cases env1.orchestrate (chooseCall s) <;> simp [submitStart]
  · rw [handleSubmit, if_neg (by rw [h]; exact Bool.false_ne_true)]
    cases env1.orchestrate (chooseCall s) <;> simp

/-- Claim C7 witness: a concrete valid submission with a second rapid
submit against the loading state. -/
theorem C7_single_request_in_flight_witness :
    (submitStart helloIdleState).isLoading = true ∧
    handleSubmit lateEnv (submitStart helloIdleState) = submitStart helloIdleState ∧
    (handleSubmit answerEnv helloIdleState).messages.length =
      helloIdleState.messages.length + 2 ∧
    (handleSubmit answerEnv helloIdleState).isLoading = false :=
  C7_single_request_in_flight answerEnv lateEnv helloIdleState (by decide)

/-- Claim C8: with a staged attachment the submission always dispatches
to the attachment orchestrator — whatever the selected mode — and the
mode label of the appended assistant message is exactly
`attachment-analysis`; with no staged attachment the orchestrator
matching the selected mode is dispatched. -/
theorem C8_attachment_overrides_mode (env : ControllerEnv) (s sNoAtt : ChatState)
    (a : PendingAttachment) (r : OrchestratorResult)
    (ha : s.pendingAttachment = some a)
    (hload : s.isLoading = false)
    (hok : env.orchestrate (chooseCall s) = Except.ok r)
    (hnone : sNoAtt.pendingAttachment = none) :
    chooseCall s = OrchestratorCall.attachment
      { question := if userMessageText s = "" then defaultAttachmentQuestion
          else userMessageText s
        attachmentDataUri := a.dataUri
        attachmentType := some a.type } ∧
    (handleSubmit env s).messages.getLast? = some (successMessage s r) ∧
    (successMessage s r).mode = some "attachment-analysis" ∧
    chooseCall sNoAtt =
      (match sNoAtt.activeMode with
       | ChatMode.comprehensive => OrchestratorCall.comprehensive (userMessageText sNoAtt)
       | ChatMode.contextual => OrchestratorCall.contextual (userMessageText sNoAtt)
       | ChatMode.standard => OrchestratorCall.standard (userMessageText sNoAtt)) := by
  have hrej : submitRejected s = false := by
    rw [submitRejected, ha, hload]
    simp
  refine ⟨?_, ?_, ?_, ?_⟩
  · rw [chooseCall, ha]
  · rw [handleSubmit, if_neg (by rw [hrej]; exact Bool.false_ne_true), hok]
    simp [submitStart]
  · rw [successMessage, ha]
    rfl
  · rw [chooseCall, hnone]

/-- Claim C8 witness: an image staged while the Contextual mode is
selected, submitted with a blank input box; and a contextual submission
with no attachment dispatching to the contextual orchestrator. -/
theorem C8_attachment_overrides_mode_witness :
    chooseCall stagedContextualState =
      OrchestratorCall.attachment
        { question := if userMessageText stagedContextualState = ""
            then defaultAttachmentQuestion else userMessageText stagedContextualState
          attachmentDataUri := stagedPng.dataUri
          attachmentType := some stagedPng.type } ∧
    (handleSubmit diagramEnv stagedContextualState).messages.getLast? =
      some (successMessage stagedContextualState diagramAnswer) ∧
    (successMessage stagedContextualState diagramAnswer).mode = some "attachment-analysis" ∧
    chooseCall contextualIdleState =
      (match contextualIdleState.activeMode with
       | ChatMode.comprehensive => OrchestratorCall.comprehensive (userMessageText contextualIdleState)
       | ChatMode.contextual => OrchestratorCall.contextual (userMessageText contextualIdleState)
       | ChatMode.standard => OrchestratorCall.standard (userMessageText contextualIdleState)) :=
  C8_attachment_overrides_mode diagramEnv stagedContextualState contextualIdleState
    stagedPng diagramAnswer rfl rfl rfl rfl

/-- Claim C9: when the invoked orchestrator faults — whatever the fault
detail — the controller appends, after the optimistic user message,
exactly one assistant message carrying the fixed apology string (not the
fault detail), clears the in-flight state back to idle, and leaves the
prior transcript and the selected mode untouched. -/
theorem C9_fault_appends_fixed_apology (env : ControllerEnv) (s : ChatState) (e : String)
    (hrej : submitRejected s = false)
    (herr : env.orchestrate (chooseCall s) = Except.error e) :
    handleSubmit env s =
      { messages := s.messages ++ [userMessageOf s, errorMessage]
        input := ""
        isLoading := false
        activeMode := s.activeMode
        pendingAttachment := none } ∧
    errorMessage = { role := MsgRole.ai, content := errorMessageText, sources := none, mode := none, attachment := none } := by
  refine ⟨?_, rfl⟩
  rw [handleSubmit, if_neg (by rw [hrej]; exact Bool.false_ne_true), herr]
  simp [submitStart]

/-- Claim C9 witness: a model-gateway fault after a greeting message is
already in the transcript. -/
theorem C9_fault_appends_fixed_apology_witness :
    handleSubmit gatewayFaultEnv greetedState =
      { messages := greetedState.messages ++ [userMessageOf greetedState, errorMessage]
        input := ""
        isLoading := false
        activeMode := greetedState.activeMode
        pendingAttachment := none } ∧
    errorMessage = { role := MsgRole.ai, content := errorMessageText, sources := none, mode := none, attachment := none } :=
  C9_fault_appends_fixed_apology gatewayFaultEnv greetedState
    "HTTP 500 from model gateway" (by decide) rfl

/-- Claim C10: a selected file larger than 10 MiB is never staged — the
controller state (in particular the pending attachment) is unchanged and
the destructive toast is shown, so such a file can never reach an
orchestrator. -/
theorem C10_oversize_file_never_staged (s : ChatState) (f : SelectedFile)
    (h : f.size > 10 * 1024 * 1024) :
    handleFileChange s (some f) = (s, true) := by
  rw [handleFileChange, if_pos h]

/-- Claim C10 witness: a file one byte over the limit. -/
theorem C10_oversize_file_never_staged_witness :
    handleFileChange emptyIdleState (some oversizeFile) = (emptyIdleState, true) :=
  C10_oversize_file_never_staged emptyIdleState oversizeFile (by decide)

end IDMC
